import Mathlib

/-!
Shallow embedding of the movie-recommender front end
(src/Front_end/src/Dashboard.js and src/Front_end/src/App.js).
State setters become functional updates on an explicit state record;
each asynchronous handler becomes a step function from the state and the
(parsed) server outcome to the next state.  JavaScript optional fields are
`Option` values; the JavaScript falsy-or operator `x || d` and the string
truthiness test are modelled explicitly.
-/

namespace MovieRecc

/-- JavaScript `x || d` on a numeric field that may be `null`/absent:
the default is taken when the value is missing or equal to `0`
(`0` is falsy in JavaScript). -/
def jsOrQ (x : Option ℚ) (d : ℚ) : ℚ :=
  match x with
  | none => d
  | some v => if v = 0 then d else v

/-- JavaScript `x || d` on an integer field that may be `undefined`. -/
def jsOrN (x : Option Nat) (d : Nat) : Nat :=
  match x with
  | none => d
  | some v => if v = 0 then d else v

/-- JavaScript truthiness of a string that may be `null`
(`localStorage.getItem` returns `null` or a string; `""` is falsy). -/
def truthyS (o : Option String) : Bool :=
  match o with
  | none => false
  | some s => s ≠ ""

/-- A movie record as delivered by the service (Dashboard.js MovieCard
fields: movie_id, title, release_year, genres, poster_url,
predicted_rating). -/
structure Movie where
  movie_id : Nat
  title : String
  release_year : Int
  genres : String
  poster_url : Option String
  predicted_rating : Option ℚ
deriving DecidableEq

/-- The userStats state slice (Dashboard.js line 13):
`useState({ user_mean: 3.5, rating_count: 0 })`. -/
structure ProfileStats where
  user_mean : ℚ
  rating_count : Nat
deriving DecidableEq

/-- Parsed body of a successful GET /api/user/stats response:
`data.rating_stats` with possibly-missing numeric fields. -/
structure StatsResp where
  user_mean : Option ℚ
  total_ratings : Option Nat
deriving DecidableEq

/-- Parsed `data.user_stats` of a successful POST /api/ratings response
(Dashboard.js lines 160-163 copy both fields verbatim). -/
structure RateResp where
  user_mean : ℚ
  rating_count : Nat
deriving DecidableEq

/-- A POST /api/recommend response together with its HTTP ok flag. -/
structure RecResp where
  ok : Bool
  recommendations : List Movie
deriving DecidableEq

/-- The JSON body sent by fetchRecommendations (Dashboard.js lines
127-133); these five fields and nothing else. -/
structure RecommendBody where
  user_mean : ℚ
  genres : List String
  min_rating : ℚ
  era : String
  limit : Nat
deriving DecidableEq

/-- Outcome of an asynchronous call: a successfully parsed ok response,
or any failure (non-ok HTTP status or a thrown/network error — both
leave the handlers in Dashboard.js without reaching their setters). -/
inductive Outcome (α : Type) where
  | ok (resp : α)
  | err
deriving DecidableEq

/-- Lookup in the userRatings object (`userRatings[movieId]`),
modelled as an association list from movie_id to rating. -/
def lookupRating (m : List (Nat × Nat)) (k : Nat) : Option Nat :=
  (m.find? (fun p => p.1 == k)).map (fun p => p.2)

/-- The object-spread update `{ ...prev, [movieId]: rating }`
(Dashboard.js line 159): an existing key keeps its place with the new
value, a fresh key is appended. -/
def setRating : List (Nat × Nat) → Nat → Nat → List (Nat × Nat)
  | [], k, v => [(k, v)]
  | p :: rest, k, v =>
      if p.1 = k then (k, v) :: rest else p :: setRating rest k v

/-- Building the ratings map from GET /api/ratings
(Dashboard.js lines 94-97: `data.ratings.forEach(...)`). -/
def buildRatingsMap (rs : List (Nat × Nat)) : List (Nat × Nat) :=
  rs.foldl (fun acc p => setRating acc p.1 p.2) []

/-- The Dashboard component state: one field per useState hook
(Dashboard.js lines 12-38). -/
structure DashState where
  user : Option String
  userStats : ProfileStats
  recommendations : List Movie
  isLoadingRecs : Bool
  selectedGenres : List String
  minRating : ℚ
  era : String
  genres : List String
  userRatings : List (Nat × Nat)
  activeTab : String
  watchlist : List Movie
  ratingModalMovie : Option Movie
  tempRating : Nat
deriving DecidableEq

/-- The initial state given by the useState initialisers. -/
def initialDashState : DashState :=
  { user := none
    userStats := { user_mean := 7/2, rating_count := 0 }
    recommendations := []
    isLoadingRecs := false
    selectedGenres := []
    minRating := 7/2
    era := "any"
    genres := []
    userRatings := []
    activeTab := "recommendations"
    watchlist := []
    ratingModalMovie := none
    tempRating := 0 }

/-- fetchUserStats (Dashboard.js lines 69-84): on an ok response the
stats are replaced using the falsy-or defaults
`data.rating_stats.user_mean || 3.5` and
`data.rating_stats.total_ratings || 0`; any failure leaves the state
untouched (the setter is guarded by `res.ok` and the catch only logs). -/
def fetchUserStatsStep (st : DashState) : Outcome StatsResp → DashState
  | .ok resp =>
      { st with userStats :=
          { user_mean := jsOrQ resp.user_mean (7/2)
            rating_count := jsOrN resp.total_ratings 0 } }
  | .err => st

/-- fetchUserRatings (Dashboard.js lines 87-103): on ok the whole map is
rebuilt from the response; any failure leaves the state untouched. -/
def fetchRatingsStep (st : DashState) : Outcome (List (Nat × Nat)) → DashState
  | .ok rs => { st with userRatings := buildRatingsMap rs }
  | .err => st

/-- fetchWatchlist (Dashboard.js lines 106-118): on ok the list is
replaced wholesale; any failure leaves the state untouched. -/
def fetchWatchlistStep (st : DashState) : Outcome (List Movie) → DashState
  | .ok ws => { st with watchlist := ws }
  | .err => st

/-- rateMovie (Dashboard.js lines 147-169): on an ok response the rating
map gains `movieId ↦ rating`, the stats are replaced verbatim from
`data.user_stats`, and the modal closes; on any failure none of the
setters run. -/
def rateMovieStep (st : DashState) (movieId rating : Nat) :
    Outcome RateResp → DashState
  | .ok resp =>
      { st with
          userRatings := setRating st.userRatings movieId rating
          userStats :=
            { user_mean := resp.user_mean
              rating_count := resp.rating_count }
          ratingModalMovie := none }
  | .err => st

/-- addToWatchlist (Dashboard.js lines 172-188): on ok it only triggers a
separate fetchWatchlist refresh (no local insertion); on failure nothing
changes. -/
def addToWatchlistStep (st : DashState) (_movieId : Nat) :
    Outcome Unit → DashState
  | .ok _ => st
  | .err => st

/-- The two observable events of fetchRecommendations
(Dashboard.js lines 121-144): issuing a request sets the loading flag;
a resolution replaces the list when the response was ok (line 137) and
always clears the loading flag (the finally block). -/
inductive RecEvent where
  | issue
  | resolve (resp : RecResp)
deriving DecidableEq

/-- One step of the recommendation request lifecycle. -/
def recStep (st : DashState) : RecEvent → DashState
  | .issue => { st with isLoadingRecs := true }
  | .resolve resp =>
      if resp.ok then
        { st with recommendations := resp.recommendations
                  isLoadingRecs := false }
      else
        { st with isLoadingRecs := false }

/-- The request body built by fetchRecommendations
(Dashboard.js lines 127-133). -/
def buildRecommendBody (st : DashState) : RecommendBody :=
  { user_mean := st.userStats.user_mean
    genres := st.selectedGenres
    min_rating := st.minRating
    era := st.era
    limit := 20 }

/-- toggleGenre (Dashboard.js lines 191-197): remove the genre when
present, append it otherwise. -/
def toggleGenre (genre : String) (prev : List String) : List String :=
  if genre ∈ prev then prev.filter (fun g => g != genre)
  else prev ++ [genre]

/-- The externally visible actions of the mount effect. -/
inductive Action where
  | setUser (raw : String)
  | authFetch (endpoint : String)
  | navigateLogin
  | fetchGenres
deriving DecidableEq, BEq

/-- The auth-check mount effect (Dashboard.js lines 41-55): with a
truthy token and user record it stores the user and issues the three
authenticated refreshes; otherwise it navigates to login.  fetchGenres
is called after the conditional in both branches. -/
def mountEffect (token userData : Option String) : List Action :=
  (if truthyS token && truthyS userData then
    [Action.setUser (userData.getD ""),
     Action.authFetch "/api/user/stats",
     Action.authFetch "/api/ratings",
     Action.authFetch "/api/watchlist"]
   else
    [Action.navigateLogin])
  ++ [Action.fetchGenres]

/-- The request issued by fetchGenres (Dashboard.js lines 58-66):
a plain GET with no Authorization header. -/
structure Request where
  path : String
  auth : Option String
deriving DecidableEq

/-- The concrete genres request: no bearer token attached. -/
def genresRequest : Request :=
  { path := "/api/genres", auth := none }

/-- Seeding of tempRating when the rate button opens the modal
(Dashboard.js line 257): `userRatings[movie.movie_id] || 0`. -/
def seedTempRating (ratings : List (Nat × Nat)) (movieId : Nat) : Nat :=
  jsOrN (lookupRating ratings movieId) 0

/-- The Save Rating button is disabled exactly when tempRating is 0
(Dashboard.js line 500). -/
def saveDisabled (tempRating : Nat) : Bool :=
  tempRating == 0

/-- A commit (rateMovie call) is issued only through an enabled Save
Rating button. -/
def commitIssued (tempRating : Nat) : Bool :=
  !(saveDisabled tempRating)

/-- The three error-message slices of the login screen
(App.js lines 7-9). -/
structure LoginState where
  usernameError : String
  passwordError : String
  invalidCredentials : Option String
deriving DecidableEq

/-- Error fields of a non-ok login response body (App.js lines 56-62). -/
structure LoginErrResp where
  error_username : Option String
  error_password : Option String
  error : Option String
deriving DecidableEq

/-- The possible outcomes of the login fetch. -/
inductive LoginOutcome where
  | okResp
  | errResp (r : LoginErrResp)
  | netErr
deriving DecidableEq

/-- handleLogin (App.js lines 12-70): reset all three error slices,
run the two client-side validations, then dispatch on the fetch
outcome; on a non-ok response each field error is set only when the
corresponding response field is truthy. -/
def handleLogin (username password : String) (outcome : LoginOutcome) :
    LoginState :=
  let st0 : LoginState :=
    { usernameError := "", passwordError := "", invalidCredentials := some "" }
  if username = "" then
    { st0 with usernameError := "Username is required" }
  else if password = "" then
    { st0 with passwordError := "Password is required" }
  else
    match outcome with
    | .okResp => st0
    | .errResp r =>
        let st1 :=
          if truthyS r.error_password then
            { st0 with passwordError := r.error_password.getD "" }
          else st0
        let st2 :=
          if truthyS r.error_username then
            { st1 with usernameError := r.error_username.getD "" }
          else st1
        { st2 with invalidCredentials := r.error }
    | .netErr =>
        { st0 with invalidCredentials := some "Network error. Please try again." }

/-- After the spread update, looking up the written key yields the new
value. -/
theorem lookupRating_setRating_self (m : List (Nat × Nat)) (k v : Nat) :
    lookupRating (setRating m k v) k = some v := by
  induction m with
  | nil => simp [setRating, lookupRating]
  | cons p rest ih =>
    by_cases h : p.1 = k
    · simp [setRating, h, lookupRating]
    · simp only [setRating, h, if_false]
      simpa [lookupRating, List.find?_cons, Nat.beq_eq_true_eq, h] using ih

/-- C1: after a successful rateMovie response for a rating r in [1,5],
the rating map entry for the movie equals r and the profile stats are
exactly the values carried in the response body (data.user_stats), with
no locally recomputed average. -/
theorem rateMovie_ok_commits (st : DashState) (movieId r : Nat)
    (resp : RateResp) (h1 : 1 ≤ r) (h2 : r ≤ 5) :
    lookupRating (rateMovieStep st movieId r (.ok resp)).userRatings movieId
        = some r
    ∧ (rateMovieStep st movieId r (.ok resp)).userStats.user_mean
        = resp.user_mean
    ∧ (rateMovieStep st movieId r (.ok resp)).userStats.rating_count
        = resp.rating_count := by
  refine ⟨?_, rfl, rfl⟩
  simp [rateMovieStep, lookupRating_setRating_self]

/-- Witness for C1 at a concrete state and response. -/
theorem rateMovie_ok_commits_witness :
    lookupRating (rateMovieStep initialDashState 7 4
        (.ok ⟨17/4, 9⟩)).userRatings 7 = some 4
    ∧ (rateMovieStep initialDashState 7 4
        (.ok ⟨17/4, 9⟩)).userStats.user_mean = 17/4
    ∧ (rateMovieStep initialDashState 7 4
        (.ok ⟨17/4, 9⟩)).userStats.rating_count = 9 :=
  rateMovie_ok_commits initialDashState 7 4 ⟨17/4, 9⟩
    (by decide) (by decide)

/-- C2: two requests in flight, the first-issued resolving last — the
displayed list equals the first request response list (completion order
wins), and the earlier-resolving second response was indeed applied in
the meantime (no cancellation). -/
theorem recommendations_completion_order_wins (st : DashState)
    (r1 r2 : RecResp) (h1 : r1.ok = true) :
    (recStep (recStep (recStep (recStep st .issue) .issue)
        (.resolve r2)) (.resolve r1)).recommendations
      = r1.recommendations
    ∧ (r2.ok = true →
        (recStep (recStep (recStep st .issue) .issue)
            (.resolve r2)).recommendations = r2.recommendations) := by
  constructor
  · cases hr2 : r2.ok <;> simp [recStep, h1, hr2]
  · intro hr2
    simp [recStep, hr2]

/-- Witness for C2 at concrete responses. -/
theorem recommendations_completion_order_wins_witness :
    (recStep (recStep (recStep (recStep initialDashState .issue) .issue)
        (.resolve ⟨true, []⟩)) (.resolve
          ⟨true, [⟨1, "A", 1999, "Drama", none, none⟩]⟩)).recommendations
      = [⟨1, "A", 1999, "Drama", none, none⟩]
    ∧ ((⟨true, []⟩ : RecResp).ok = true →
        (recStep (recStep (recStep initialDashState .issue) .issue)
            (.resolve ⟨true, []⟩)).recommendations = []) :=
  recommendations_completion_order_wins initialDashState
    ⟨true, [⟨1, "A", 1999, "Drama", none, none⟩]⟩ ⟨true, []⟩ rfl

/-- C3: the recommendation request body consists of exactly
user_mean, genres, min_rating, era and limit taken from the current
state, with limit fixed at 20; with the default filter values the body
is exactly those values; and an ok response list is stored verbatim —
no client-side filtering. -/
theorem recommendBody_exact (st : DashState) (resp : RecResp) :
    (buildRecommendBody st).limit = 20
    ∧ (buildRecommendBody st).user_mean = st.userStats.user_mean
    ∧ (buildRecommendBody st).genres = st.selectedGenres
    ∧ (buildRecommendBody st).min_rating = st.minRating
    ∧ (buildRecommendBody st).era = st.era
    ∧ (st.selectedGenres = [] → st.minRating = 7/2 → st.era = "any" →
        buildRecommendBody st
          = ⟨st.userStats.user_mean, [], 7/2, "any", 20⟩)
    ∧ (resp.ok = true →
        (recStep st (.resolve resp)).recommendations
          = resp.recommendations) := by
  refine ⟨rfl, rfl, rfl, rfl, rfl, ?_, ?_⟩
  · intro hg hm he
    simp [buildRecommendBody, hg, hm, he]
  · intro hok
    simp [recStep, hok]

/-- Witness for C3 at the initial state and a concrete ok response. -/
theorem recommendBody_exact_witness :
    (buildRecommendBody initialDashState).limit = 20
    ∧ (buildRecommendBody initialDashState
        = ⟨initialDashState.userStats.user_mean, [], 7/2, "any", 20⟩)
    ∧ (recStep initialDashState
        (.resolve ⟨true, [⟨2, "B", 2001, "Comedy", none, some 4⟩]⟩)).recommendations
      = [⟨2, "B", 2001, "Comedy", none, some 4⟩] := by
  obtain ⟨hl, _, _, _, _, hdef, hver⟩ :=
    recommendBody_exact initialDashState
      ⟨true, [⟨2, "B", 2001, "Comedy", none, some 4⟩]⟩
  exact ⟨hl, hdef rfl rfl rfl, hver rfl⟩

/-- C4 counterexample: the claim says a server-supplied user_mean of 0
is stored as-is (nullish semantics), but the code uses the falsy-or
`data.rating_stats.user_mean || 3.5`, so a response carrying
user_mean = 0 is stored as 3.5, not 0. -/
theorem fetchUserStats_nullish_counterexample :
    (fetchUserStatsStep initialDashState
        (.ok ⟨some 0, some 17⟩)).userStats.user_mean = 7/2
    ∧ ((7 : ℚ)/2 ≠ 0) := by
  constructor
  · rfl
  · norm_num

/-- C4 amended: on a successful stats refresh the defaults are applied
with falsy-or semantics — user_mean becomes 3.5 when the response field
is null, absent or 0, and equals the field otherwise; total_ratings is
stored as its value for every present field (a present 0 coincides with
the default 0) and defaults to 0 when absent. -/
theorem fetchUserStats_falsy_defaults (st : DashState) (resp : StatsResp) :
    ((resp.user_mean = none ∨ resp.user_mean = some 0) →
        (fetchUserStatsStep st (.ok resp)).userStats.user_mean = 7/2)
    ∧ (∀ v : ℚ, resp.user_mean = some v → v ≠ 0 →
        (fetchUserStatsStep st (.ok resp)).userStats.user_mean = v)
    ∧ (resp.total_ratings = none →
        (fetchUserStatsStep st (.ok resp)).userStats.rating_count = 0)
    ∧ (∀ n : Nat, resp.total_ratings = some n →
        (fetchUserStatsStep st (.ok resp)).userStats.rating_count = n) := by
  refine ⟨?_, ?_, ?_, ?_⟩
  · rintro (h | h) <;> simp [fetchUserStatsStep, jsOrQ, h]
  · intro v hv hne
    simp [fetchUserStatsStep, jsOrQ, hv, hne]
  · intro h
    simp [fetchUserStatsStep, jsOrN, h]
  · intro n hn
    rcases Nat.eq_zero_or_pos n with h0 | h0
    · simp [fetchUserStatsStep, jsOrN, hn, h0]
    · simp [fetchUserStatsStep, jsOrN, hn, Nat.pos_iff_ne_zero.mp h0]

/-- Witness for the amended C4 at concrete responses. -/
theorem fetchUserStats_falsy_defaults_witness :
    (fetchUserStatsStep initialDashState
        (.ok ⟨some 0, some 0⟩)).userStats.user_mean = 7/2
    ∧ (fetchUserStatsStep initialDashState
        (.ok ⟨some 2, some 0⟩)).userStats.user_mean = 2
    ∧ (fetchUserStatsStep initialDashState
        (.ok ⟨none, none⟩)).userStats.rating_count = 0
    ∧ (fetchUserStatsStep initialDashState
        (.ok ⟨some 2, some 0⟩)).userStats.rating_count = 0 := by
  refine ⟨?_, ?_, ?_, ?_⟩
  · exact (fetchUserStats_falsy_defaults initialDashState
      ⟨some 0, some 0⟩).1 (Or.inr rfl)
  · exact (fetchUserStats_falsy_defaults initialDashState
      ⟨some 2, some 0⟩).2.1 2 rfl (by norm_num)
  · exact (fetchUserStats_falsy_defaults initialDashState
      ⟨none, none⟩).2.2.1 rfl
  · exact (fetchUserStats_falsy_defaults initialDashState
      ⟨some 2, some 0⟩).2.2.2 0 rfl

/-- C5: toggling a genre twice returns the starting selection as a set,
one toggle preserves freedom from duplicates, and membership of every
other genre is unaffected. -/
theorem toggleGenre_twice_set_identity (l : List String) (g : String) :
    (toggleGenre g (toggleGenre g l)).toFinset = l.toFinset
    ∧ (l.Nodup → (toggleGenre g l).Nodup)
    ∧ (∀ x : String, x ≠ g → (x ∈ toggleGenre g l ↔ x ∈ l)) := by
  by_cases h : g ∈ l
  · have h1 : toggleGenre g l = l.filter (fun x => x != g) := by
      simp [toggleGenre, h]
    have h2 : g ∉ l.filter (fun x => x != g) := by
      simp [List.mem_filter]
    refine ⟨?_, ?_, ?_⟩
    · rw [h1, toggleGenre, if_neg h2]
      ext a
      simp only [List.mem_toFinset, List.mem_append, List.mem_filter,
        List.mem_singleton, bne_iff_ne]
      constructor
      · rintro (⟨ha, _⟩ | rfl)
        · exact ha
        · exact h
      · intro ha
        by_cases hag : a = g
        · exact Or.inr hag
        · exact Or.inl ⟨ha, hag⟩
    · intro hnd
      rw [h1]
      exact hnd.filter _
    · intro x hx
      rw [h1]
      simp [List.mem_filter, hx]
  · have h1 : toggleGenre g l = l ++ [g] := by
      simp [toggleGenre, h]
    have h2 : g ∈ l ++ [g] := by simp
    have h3 : (l ++ [g]).filter (fun x => x != g) = l := by
      rw [List.filter_append]
      have hl : l.filter (fun x => x != g) = l :=
        List.filter_eq_self.mpr (fun a ha => by
          simp only [bne_iff_ne, ne_eq, decide_eq_true_eq]
          exact fun hag => h (hag ▸ ha))
      simp [hl]
    refine ⟨?_, ?_, ?_⟩
    · rw [h1, toggleGenre, if_pos h2, h3]
    · intro hnd
      rw [h1, List.nodup_append]
      exact ⟨hnd, List.nodup_singleton g, by
        intro a ha hb
        simp only [List.mem_singleton] at hb
        exact h (hb ▸ ha)⟩
    · intro x hx
      rw [h1]
      simp [hx]

/-- Witness for C5 at a concrete selection and genre. -/
theorem toggleGenre_twice_set_identity_witness :
    (toggleGenre "Action" (toggleGenre "Action" ["Drama"])).toFinset
        = (["Drama"] : List String).toFinset
    ∧ (toggleGenre "Action" ["Drama"]).Nodup
    ∧ ("Drama" ∈ toggleGenre "Action" ["Drama"]
        ↔ "Drama" ∈ (["Drama"] : List String)) := by
  obtain ⟨h1, h2, h3⟩ := toggleGenre_twice_set_identity ["Drama"] "Action"
  exact ⟨h1, h2 (by decide), h3 "Drama" (by decide)⟩

/-- C6: with no persisted token the mount effect performs exactly one
navigation to login and the genre fetch, issues no authenticated
refresh, and stores no user. -/
theorem mountEffect_no_token (userData : Option String) :
    mountEffect none userData = [Action.navigateLogin, Action.fetchGenres]
    ∧ (mountEffect none userData).count Action.navigateLogin = 1
    ∧ (∀ ep : String, Action.authFetch ep ∉ mountEffect none userData) := by
  refine ⟨rfl, rfl, ?_⟩
  intro ep
  simp [mountEffect, truthyS]

/-- Witness for C6 at a concrete persisted-user value. -/
theorem mountEffect_no_token_witness :
    mountEffect none (some "alice")
        = [Action.navigateLogin, Action.fetchGenres]
    ∧ (mountEffect none (some "alice")).count Action.navigateLogin = 1
    ∧ Action.authFetch "/api/ratings" ∉ mountEffect none (some "alice") := by
  obtain ⟨h1, h2, h3⟩ := mountEffect_no_token (some "alice")
  exact ⟨h1, h2, h3 "/api/ratings"⟩

/-- C7: opening the rating modal seeds tempRating with the stored rating
for the movie (ratings lie in 1..5, hence are truthy), or 0 when the
movie is unrated; and the Save Rating commit is not issued while
tempRating is 0. -/
theorem modal_seed_and_commit_gate (ratings : List (Nat × Nat))
    (movieId r : Nat) :
    (lookupRating ratings movieId = some r → 1 ≤ r →
        seedTempRating ratings movieId = r)
    ∧ (lookupRating ratings movieId = none →
        seedTempRating ratings movieId = 0)
    ∧ commitIssued 0 = false
    ∧ (∀ t : Nat, commitIssued t = true → t ≠ 0) := by
  refine ⟨?_, ?_, rfl, ?_⟩
  · intro hl hr
    have hne : r ≠ 0 := Nat.one_le_iff_ne_zero.mp hr
    simp [seedTempRating, jsOrN, hl, hne]
  · intro hl
    simp [seedTempRating, jsOrN, hl]
  · intro t ht
    simp [commitIssued, saveDisabled] at ht
    exact ht

/-- Witness for C7: a movie rated 4 seeds 4, an unrated movie seeds 0,
and commit is gated at 0. -/
theorem modal_seed_and_commit_gate_witness :
    seedTempRating [(7, 4)] 7 = 4
    ∧ seedTempRating [(7, 4)] 9 = 0
    ∧ commitIssued 0 = false := by
  obtain ⟨h1, _, h3, _⟩ := modal_seed_and_commit_gate [(7, 4)] 7 4
  obtain ⟨_, h2, _, _⟩ := modal_seed_and_commit_gate [(7, 4)] 9 4
  exact ⟨h1 (by decide) (by decide), h2 (by decide), h3⟩

/-- C8: every failure outcome leaves the prior store state unchanged —
the stats, ratings and watchlist refreshes, the rate call (in
particular its rating map) and the add-to-watchlist call return the
state untouched, and a failed recommendation request leaves the
recommendation list as it was (and the whole state, once the loading
flag it raised is cleared again). -/
theorem failures_preserve_state (st : DashState) (movieId rating : Nat)
    (resp : RecResp) (hok : resp.ok = false) :
    fetchUserStatsStep st .err = st
    ∧ fetchRatingsStep st .err = st
    ∧ fetchWatchlistStep st .err = st
    ∧ rateMovieStep st movieId rating .err = st
    ∧ (rateMovieStep st movieId rating .err).userRatings = st.userRatings
    ∧ addToWatchlistStep st movieId .err = st
    ∧ (recStep (recStep st .issue) (.resolve resp)).recommendations
        = st.recommendations
    ∧ (st.isLoadingRecs = false →
        recStep (recStep st .issue) (.resolve resp) = st) := by
  refine ⟨rfl, rfl, rfl, rfl, rfl, rfl, ?_, ?_⟩
  · simp [recStep, hok]
  · intro hload
    cases st
    simp_all [recStep]

/-- Witness for C8 at the initial state and a concrete failed
response. -/
theorem failures_preserve_state_witness :
    fetchUserStatsStep initialDashState .err = initialDashState
    ∧ rateMovieStep initialDashState 3 5 .err = initialDashState
    ∧ (recStep (recStep initialDashState .issue)
        (.resolve ⟨false, []⟩)).recommendations
      = initialDashState.recommendations
    ∧ recStep (recStep initialDashState .issue) (.resolve ⟨false, []⟩)
        = initialDashState := by
  obtain ⟨h1, _, _, h4, _, _, h7, h8⟩ :=
    failures_preserve_state initialDashState 3 5 ⟨false, []⟩ rfl
  exact ⟨h1, h4, h7, h8 rfl⟩

/-- C9: a failed login response carrying only error_username sets the
username field error to that message and leaves the password field
error empty after the reset. -/
theorem login_username_error_only (u p msg : String)
    (hu : u ≠ "") (hp : p ≠ "") (hm : msg ≠ "") :
    (handleLogin u p (.errResp ⟨some msg, none, none⟩)).usernameError = msg
    ∧ (handleLogin u p (.errResp ⟨some msg, none, none⟩)).passwordError
        = "" := by
  constructor <;> simp [handleLogin, truthyS, hu, hp, hm]

/-- Witness for C9 at concrete credentials and message. -/
theorem login_username_error_only_witness :
    (handleLogin "alice" "pw"
        (.errResp ⟨some "Username is required", none, none⟩)).usernameError
      = "Username is required"
    ∧ (handleLogin "alice" "pw"
        (.errResp ⟨some "Username is required", none, none⟩)).passwordError
      = "" :=
  login_username_error_only "alice" "pw" "Username is required"
    (by decide) (by decide) (by decide)

/-- C10: the genre-catalog fetch is issued by the mount effect for every
token/user combination — including the unauthenticated path, where the
login redirect is also emitted but does not suppress the genre fetch —
and the genres request carries no bearer token. -/
theorem genresFetch_unconditional (token userData : Option String) :
    Action.fetchGenres ∈ mountEffect token userData
    ∧ genresRequest.auth = none
    ∧ mountEffect none none = [Action.navigateLogin, Action.fetchGenres] := by
  refine ⟨?_, rfl, rfl⟩
  by_cases h : truthyS token && truthyS userData = true <;>
    simp [mountEffect, h]

end MovieRecc
